import Mathlib

/-!
Shallow embedding of the soroban streaming-payments contract
(src/src/lib.rs).  Identifiers, signatures, errors, the stream records and
the four persisted key spaces are translated directly from the source; the
contract entry points (c_stream, w_stream, s_stream, get_stream, nonce)
become pure functions from an invocation context and a contract state to an
outcome.  External collaborators are modelled as follows: the token
transfer primitive always succeeds and its calls are recorded in a transfer
list; signature verification is a boolean of the context (the external
verify primitive either passes or aborts the call); the ledger clock is a
field of the context.  Machine arithmetic on u64 that can trap (subtraction
underflow, division by zero) is modelled with Option-returning helpers, and
a trapped operation produces the distinguished outcome fault.
-/

namespace SorobanStreaming

/-- Identifier, from soroban_auth: a contract id, an ed25519 key or an
account. Payloads are abstracted to natural numbers. -/
inductive Identifier where
  | Contract (id : Nat)
  | Ed25519 (pk : Nat)
  | Account (acc : Nat)
deriving DecidableEq

/-- Signature, from soroban_auth: the invoker of the contract, or a signed
credential from an ed25519 key or an account. -/
inductive Signature where
  | Invoker
  | Ed25519 (pk : Nat)
  | Account (acc : Nat)
deriving DecidableEq

/-- signature.identifier(&env): the Invoker signature names the direct
invoker of the contract; the other two name the signing key or account. -/
def Signature.identifier (invoker : Identifier) : Signature → Identifier
  | .Invoker => invoker
  | .Ed25519 pk => .Ed25519 pk
  | .Account acc => .Account acc

/-- The contract error enum of lib.rs. -/
inductive Error where
  | StreamNotExist
  | NotAuthorized
  | IncorrectNonceForInvoker
  | IncorrectNonce
  | StreamCancelled
  | StreamNotCancellable
  | StreamDone
deriving DecidableEq

/-- StreamData: the mutable per-stream ledger record. a_withdraw is a
BigInt in the source, modelled as Int. -/
structure StreamData where
  a_withdraw : Int
  cancelled : Bool
deriving DecidableEq

/-- Stream: the immutable stream terms.  u64 fields become Nat, the BigInt
amount becomes Int, the token contract id is abstracted to a Nat. -/
structure Stream where
  «from» : Identifier
  «to» : Identifier
  amount : Int
  start_time : Nat
  end_time : Nat
  tick_time : Nat
  token_c_id : Nat
  able_stop : Bool
deriving DecidableEq

/-- The value found under a DataKey.StreamData(id) storage key.  c_stream
and set_stream_data_cancelled store a StreamData record there, but
update_amount_withdrawn in the source passes the bare BigInt to
env.data().set, so the slot can also hold a plain integer; reading such a
slot as a StreamData fails the type conversion. -/
inductive SDVal where
  | sd (d : StreamData)
  | big (n : Int)
deriving DecidableEq

/-- Association-list update (insert or overwrite). -/
def setk {α β : Type} [DecidableEq α] (k : α) (v : β) : List (α × β) → List (α × β)
  | [] => [(k, v)]
  | (k2, v2) :: rest => if k = k2 then (k, v) :: rest else (k2, v2) :: setk k v rest

/-- Association-list lookup. -/
def getk {α β : Type} [DecidableEq α] (k : α) : List (α × β) → Option β
  | [] => none
  | (k2, v) :: rest => if k = k2 then some v else getk k rest

/-- The persisted contract data: the four key spaces of DataKey. -/
structure ContractState where
  streams : List (Nat × Stream)
  streamData : List (Nat × SDVal)
  stream_id : Option Nat
  nonces : List (Identifier × Int)
deriving DecidableEq

/-- A recorded call of the external token transfer primitive. -/
structure Transfer where
  token : Nat
  src : Identifier
  dst : Identifier
  amount : Int
deriving DecidableEq

/-- Per-invocation context: the contract id, the direct invoker, the ledger
timestamp, and whether the external signature verification passes. -/
structure Ctx where
  selfId : Nat
  invoker : Identifier
  now : Nat
  sigOk : Bool
deriving DecidableEq

/-- Result of a contract invocation: success with a return value, the new
persisted state and the list of token transfers made; a contract error; or
an arithmetic trap (u64 underflow or division by zero). -/
inductive Outcome (α : Type) where
  | ok (val : α) (st : ContractState) (xfers : List Transfer)
  | err (e : Error)
  | fault
deriving DecidableEq

/-- Whether the invocation succeeded. -/
def Outcome.isOk {α : Type} : Outcome α → Bool
  | .ok _ _ _ => true
  | _ => false

/-- u64 subtraction: traps on underflow. -/
def sub64 (a b : Nat) : Option Nat :=
  if b ≤ a then some (a - b) else none

/-- u64 division: traps on division by zero. -/
def div64 (a b : Nat) : Option Nat :=
  if b = 0 then none else some (a / b)

/-- BigInt division by a u64 (promoted): traps on division by zero;
truncating division as for arbitrary-precision integers. -/
def bigDiv (a : Int) (b : Nat) : Option Int :=
  if b = 0 then none else some (Int.tdiv a b)

/-- get_and_inc_stream_id: read the id counter (0 when absent), store the
incremented counter, return the previous value. -/
def get_and_inc_stream_id (st : ContractState) : Nat × ContractState :=
  let prev := st.stream_id.getD 0
  (prev, { st with stream_id := some (prev + 1) })

/-- The free function get_stream of lib.rs: the Stream stored under
DataKey.Stream(stream_id), or the StreamNotExist error. -/
def get_stream (st : ContractState) (stream_id : Nat) : Except Error Stream :=
  match getk stream_id st.streams with
  | some s => .ok s
  | none => .error .StreamNotExist

/-- The free function get_stream_data of lib.rs: the value stored under
DataKey.StreamData(stream_id) read as a StreamData.  The source matches
Some(Ok(data)) and panics with StreamNotExist on every other case, so both
an absent slot and a slot holding a bare BigInt (which fails the StreamData
conversion) give StreamNotExist. -/
def get_stream_data (st : ContractState) (stream_id : Nat) : Except Error StreamData :=
  match getk stream_id st.streamData with
  | some (.sd d) => .ok d
  | _ => .error .StreamNotExist

/-- set_stream_data_cancelled: overwrite the StreamData slot with a record
whose a_withdraw is zero and whose cancelled flag is set. -/
def set_stream_data_cancelled (st : ContractState) (stream_id : Nat) : ContractState :=
  { st with streamData := setk stream_id (.sd { a_withdraw := 0, cancelled := true }) st.streamData }

/-- update_amount_withdrawn: the source stores the bare BigInt
total_amount_withdrawn under DataKey.StreamData(stream_id) (not wrapped in
a StreamData record), so the slot now holds a plain integer. -/
def update_amount_withdrawn (st : ContractState) (stream_id : Nat) (total_amount_withdrawn : Int) : ContractState :=
  { st with streamData := setk stream_id (.big total_amount_withdrawn) st.streamData }

/-- get_nonce: the stored nonce of an identity, zero when absent. -/
def get_nonce (st : ContractState) (id : Identifier) : Int :=
  (getk id st.nonces).getD 0

/-- set_nonce: store the nonce of an identity. -/
def set_nonce (st : ContractState) (id : Identifier) (nonce : Int) : ContractState :=
  { st with nonces := setk id nonce st.nonces }

/-- verify_and_consume_nonce: Invoker signatures require nonce zero and
leave the store untouched; delegated signatures require the stored nonce
and store its successor. -/
def verify_and_consume_nonce (st : ContractState) (sig : Signature) (invoker : Identifier) (nonce : Int) : Except Error ContractState :=
  match sig with
  | .Invoker =>
      if (0 : Int) ≠ nonce then .error .IncorrectNonceForInvoker else .ok st
  | .Ed25519 _ | .Account _ =>
      let id := sig.identifier invoker
      if nonce ≠ get_nonce st id then .error .IncorrectNonce
      else .ok (set_nonce st id (nonce + 1))

/-- c_stream: verify the signature, verify and consume the nonce, pull
stream.amount from stream.from into the contract escrow, allocate the next
stream id, store the Stream and a zeroed StreamData, return the id.  The
source performs no comparison of the signer with stream.from and no
validation of the stream terms. -/
def c_stream (ctx : Ctx) (st : ContractState) (signature : Signature) (nonce : Int) (stream : Stream) : Outcome Nat :=
  if !ctx.sigOk then .err .NotAuthorized else
  match verify_and_consume_nonce st signature ctx.invoker nonce with
  | .error e => .err e
  | .ok st1 =>
    let t : Transfer := ⟨stream.token_c_id, stream.«from», .Contract ctx.selfId, stream.amount⟩
    let p := get_and_inc_stream_id st1
    let st2 := { p.2 with streams := setk p.1 stream p.2.streams }
    let st3 := { st2 with streamData := setk p.1 (.sd { a_withdraw := 0, cancelled := false }) st2.streamData }
    .ok p.1 st3 [t]

/-- w_stream: load the stream and its data (StreamNotExist when either is
missing or undecodable), require the signer to be the payee, the stream not
cancelled and not done, then verify signature and nonce.  Strictly past
end_time the whole remainder is paid and stream.amount committed; otherwise
the tick arithmetic of lines 144 to 159 runs, paying
amount_per_tick * elapsed_ticks - a_withdraw and committing
a_withdraw + that amount.  Both commits go through
update_amount_withdrawn. -/
def w_stream (ctx : Ctx) (st : ContractState) (signature : Signature) (nonce : Int) (stream_id : Nat) : Outcome Int :=
  match get_stream st stream_id with
  | .error e => .err e
  | .ok stream =>
  match get_stream_data st stream_id with
  | .error e => .err e
  | .ok stream_data =>
  let id := signature.identifier ctx.invoker
  if id ≠ stream.to then .err .NotAuthorized else
  if stream_data.cancelled then .err .StreamCancelled else
  if stream_data.a_withdraw = stream.amount then .err .StreamDone else
  if !ctx.sigOk then .err .NotAuthorized else
  match verify_and_consume_nonce st signature ctx.invoker nonce with
  | .error e => .err e
  | .ok st1 =>
  if stream.end_time < ctx.now then
    let pay := stream.amount - stream_data.a_withdraw
    .ok pay (update_amount_withdrawn st1 stream_id stream.amount)
      [⟨stream.token_c_id, .Contract ctx.selfId, stream.to, pay⟩]
  else
  match sub64 stream.end_time stream.start_time with
  | none => .fault
  | some duration =>
  match div64 duration stream.tick_time with
  | none => .fault
  | some tt =>
  let total_ticks := if duration % stream.tick_time ≠ 0 then tt + 1 else tt
  match bigDiv stream.amount total_ticks with
  | none => .fault
  | some amount_per_tick =>
  match sub64 ctx.now stream.start_time with
  | none => .fault
  | some time_elapsed =>
  match div64 time_elapsed stream.tick_time with
  | none => .fault
  | some elapsed_ticks =>
  let amount_to_withdraw := amount_per_tick * (elapsed_ticks : Int) - stream_data.a_withdraw
  .ok amount_to_withdraw
    (update_amount_withdrawn st1 stream_id (stream_data.a_withdraw + amount_to_withdraw))
    [⟨stream.token_c_id, .Contract ctx.selfId, stream.to, amount_to_withdraw⟩]

/-- s_stream: load the stream and its data, require the signer to be the
payer, the stream cancellable and not yet cancelled, verify the signature
(no nonce is used), transfer stream.amount - a_withdraw back to the signer
and overwrite the data with the cancelled record. -/
def s_stream (ctx : Ctx) (st : ContractState) (signature : Signature) (stream_id : Nat) : Outcome Unit :=
  match get_stream st stream_id with
  | .error e => .err e
  | .ok stream =>
  match get_stream_data st stream_id with
  | .error e => .err e
  | .ok stream_data =>
  let id := signature.identifier ctx.invoker
  if stream.«from» ≠ id then .err .NotAuthorized else
  if !stream.able_stop then .err .StreamNotCancellable else
  if stream_data.cancelled then .err .StreamCancelled else
  if !ctx.sigOk then .err .NotAuthorized else
  .ok () (set_stream_data_cancelled st stream_id)
    [⟨stream.token_c_id, .Contract ctx.selfId, id, stream.amount - stream_data.a_withdraw⟩]

/-- The public get_stream entry point: the pair of the stream and its
data. -/
def StreamingContract.get_stream (st : ContractState) (stream_id : Nat) : Except Error (Stream × StreamData) :=
  match SorobanStreaming.get_stream st stream_id, get_stream_data st stream_id with
  | .ok s, .ok d => .ok (s, d)
  | .error e, _ => .error e
  | .ok _, .error e => .error e

/-- The public nonce entry point. -/
def StreamingContract.nonce (st : ContractState) (id : Identifier) : Int :=
  get_nonce st id

/-- A run of successful delegated AuthGuard rounds: each round submits the
currently stored nonce of the signer (the correct nonce), which is the only
accepted value for a delegated signature. -/
def delegatedRun (sig : Signature) (invoker : Identifier) : Nat → ContractState → ContractState
  | 0, st => st
  | n + 1, st =>
    match verify_and_consume_nonce st sig invoker (get_nonce st (sig.identifier invoker)) with
    | .ok st1 => delegatedRun sig invoker n st1
    | .error _ => st

/-- The empty persisted state: no streams, no counter, no nonces. -/
def emptyState : ContractState :=
  { streams := [], streamData := [], stream_id := none, nonces := [] }

/-- The stream of the repository test and of the spec scenarios: 10 units
from account 1 to account 2 over the interval 0 to 10 with tick 1. -/
def demoStream : Stream :=
  { «from» := .Account 1, «to» := .Account 2, amount := 10, start_time := 0,
    end_time := 10, tick_time := 1, token_c_id := 3, able_stop := false }

/-- The state right after creating demoStream as stream 0. -/
def demoState : ContractState :=
  { streams := [(0, demoStream)], streamData := [(0, .sd { a_withdraw := 0, cancelled := false })],
    stream_id := some 1, nonces := [] }

/-- demoStream with tick 3: at the end-time boundary the tick arithmetic
does not reach the full amount (4 rounded-up ticks of 2 units each, only 3
elapsed). -/
def coarseStream : Stream :=
  { «from» := .Account 1, «to» := .Account 2, amount := 10, start_time := 0,
    end_time := 10, tick_time := 3, token_c_id := 3, able_stop := false }

/-- The state right after creating coarseStream as stream 0. -/
def coarseState : ContractState :=
  { streams := [(0, coarseStream)], streamData := [(0, .sd { a_withdraw := 0, cancelled := false })],
    stream_id := some 1, nonces := [] }

/-- demoStream with the cancellation right enabled. -/
def stopStream : Stream :=
  { demoStream with able_stop := true }

/-- stopStream stored as stream 0 with 3 units already withdrawn (the
cancel scenario of the spec). -/
def stopState : ContractState :=
  { streams := [(0, stopStream)], streamData := [(0, .sd { a_withdraw := 3, cancelled := false })],
    stream_id := some 1, nonces := [] }

/-- stopStream stored as stream 0, already cancelled. -/
def cancelledState : ContractState :=
  { streams := [(0, stopStream)], streamData := [(0, .sd { a_withdraw := 0, cancelled := true })],
    stream_id := some 1, nonces := [] }

/-- demoStream stored as stream 0, fully withdrawn. -/
def doneState : ContractState :=
  { streams := [(0, demoStream)], streamData := [(0, .sd { a_withdraw := 10, cancelled := false })],
    stream_id := some 1, nonces := [] }

/-- An invocation context for the payee (account 2) invoking directly at a
given ledger time, with a passing signature check. -/
def payeeCtx (now : Nat) : Ctx :=
  { selfId := 99, invoker := .Account 2, now := now, sigOk := true }

/-- An invocation context for the payer (account 1) invoking directly. -/
def payerCtx (now : Nat) : Ctx :=
  { selfId := 99, invoker := .Account 1, now := now, sigOk := true }

/-- A stream with tick_time zero: c_stream accepts it, and the tick
arithmetic of w_stream then divides by zero. -/
def zeroTickStream : Stream :=
  { «from» := .Account 1, «to» := .Account 2, amount := 10, start_time := 0,
    end_time := 10, tick_time := 0, token_c_id := 3, able_stop := false }

/-- A stream whose start time lies in the future: a withdraw before
start_time (and not after end_time) underflows the u64 subtraction
now - start_time. -/
def futureStream : Stream :=
  { «from» := .Account 1, «to» := .Account 2, amount := 10, start_time := 100,
    end_time := 200, tick_time := 1, token_c_id := 3, able_stop := false }

/-- A stream with end_time before start_time: the u64 subtraction
end_time - start_time underflows on any withdraw not past end_time. -/
def invertedStream : Stream :=
  { «from» := .Account 1, «to» := .Account 2, amount := 10, start_time := 10,
    end_time := 5, tick_time := 1, token_c_id := 3, able_stop := false }

/-- The post-create state for a given stream stored as stream 0. -/
def singleState (s : Stream) : ContractState :=
  { streams := [(0, s)], streamData := [(0, .sd { a_withdraw := 0, cancelled := false })],
    stream_id := some 1, nonces := [] }

theorem getk_setk_same {α β : Type} [DecidableEq α] (k : α) (v : β) :
    ∀ l : List (α × β), getk k (setk k v l) = some v := by
  intro l
  induction l with
  | nil => simp [getk, setk]
  | cons p rest ih =>
    by_cases h : k = p.1
    · simp [getk, setk, h]
    · simp [getk, setk, h, ih]

theorem get_nonce_set_nonce (st : ContractState) (id : Identifier) (v : Int) :
    get_nonce (set_nonce st id v) id = v := by
  simp [get_nonce, set_nonce, getk_setk_same]

theorem delegated_step (sig : Signature) (invoker : Identifier) (st : ContractState)
    (hsig : sig ≠ .Invoker) :
    verify_and_consume_nonce st sig invoker (get_nonce st (sig.identifier invoker)) =
      .ok (set_nonce st (sig.identifier invoker) (get_nonce st (sig.identifier invoker) + 1)) := by
  cases sig with
  | Invoker => exact absurd rfl hsig
  | Ed25519 pk => simp [verify_and_consume_nonce]
  | Account acc => simp [verify_and_consume_nonce]

theorem delegatedRun_get_nonce (sig : Signature) (invoker : Identifier)
    (hsig : sig ≠ .Invoker) :
    ∀ (N : Nat) (st : ContractState),
      get_nonce (delegatedRun sig invoker N st) (sig.identifier invoker) =
        get_nonce st (sig.identifier invoker) + N := by
  intro N
  induction N with
  | zero => intro st; simp [delegatedRun]
  | succ n ih =>
    intro st
    rw [delegatedRun, delegated_step sig invoker st hsig, ih, get_nonce_set_nonce]
    push_cast
    ring

/-- Claim C1: a successful w_stream is claimed to commit the new cumulative
total to the stream's StreamData record so that a subsequent get_stream
returns a StreamData whose a_withdraw equals the updated total.  Evaluating
the code at the failing input (the repository test scenario: amount 10 over
0..10 with tick 1, withdrawal at time 5): the withdrawal succeeds and pays
5, but update_amount_withdrawn stores the bare integer 5 under the
StreamData key, so the subsequent get_stream fails with StreamNotExist
rather than returning a record with a_withdraw = 5. -/
theorem w_stream_commit_breaks_get_stream :
    w_stream (payeeCtx 5) demoState .Invoker 0 0 =
      .ok 5 (update_amount_withdrawn demoState 0 5)
        [⟨3, .Contract 99, .Account 2, 5⟩] ∧
    StreamingContract.get_stream (update_amount_withdrawn demoState 0 5) 0 =
      .error .StreamNotExist :=
  ⟨by decide, rfl⟩

/-- Claim C4: two consecutive withdrawals at the same ledger time are
claimed to pay non-zero then exactly zero, the second a no-op.  Evaluating
the code: the first call at time 5 pays 5 and commits a bare integer into
the StreamData slot, so the second call at the same time fails with
StreamNotExist instead of succeeding with a zero payout. -/
theorem second_withdraw_same_time_fails :
    w_stream (payeeCtx 5) demoState .Invoker 0 0 =
      .ok 5 (update_amount_withdrawn demoState 0 5)
        [⟨3, .Contract 99, .Account 2, 5⟩] ∧
    w_stream (payeeCtx 5) (update_amount_withdrawn demoState 0 5) .Invoker 0 0 =
      .err .StreamNotExist := by
  decide

/-- Claim C5: after every committed transition the stored StreamData is
claimed to satisfy 0 ≤ a_withdraw ≤ stream.amount.  Evaluating the code at
the failing input: after the withdraw transition commits, the StreamData
key holds the bare integer 5 and no StreamData record at all, so reading
the slot as a StreamData fails with StreamNotExist. -/
theorem withdraw_commit_stores_bare_integer :
    w_stream (payeeCtx 5) demoState .Invoker 0 0 =
      .ok 5 (update_amount_withdrawn demoState 0 5)
        [⟨3, .Contract 99, .Account 2, 5⟩] ∧
    getk 0 (update_amount_withdrawn demoState 0 5).streamData = some (.big 5) ∧
    get_stream_data (update_amount_withdrawn demoState 0 5) 0 =
      .error .StreamNotExist := by
  refine ⟨by decide, by decide, rfl⟩

/-- Claim C2, counterexample: c_stream is claimed to succeed only when the
signer equals stream.from.  Concretely, a create of demoStream (whose payer
is account 1) signed by the ed25519 key 7, with a passing signature check
and the correct nonce 0, succeeds even though the signer differs from
stream.from. -/
theorem create_by_non_payer_succeeds :
    Signature.identifier (Ctx.mk 99 (.Account 7) 0 true).invoker (.Ed25519 7) ≠ demoStream.«from» ∧
    (c_stream (Ctx.mk 99 (.Account 7) 0 true) emptyState (.Ed25519 7) 0 demoStream).isOk = true := by
  decide

/-- Claim C2, amended: c_stream validates only the signature and the nonce
of the signer; it never compares the signer with stream.from, so any signer
with a valid signature and correct nonce succeeds. -/
theorem create_checks_only_signature_and_nonce (ctx : Ctx) (st st1 : ContractState)
    (sig : Signature) (nonce : Int) (stream : Stream)
    (hsig : ctx.sigOk = true)
    (hnonce : verify_and_consume_nonce st sig ctx.invoker nonce = .ok st1) :
    (c_stream ctx st sig nonce stream).isOk = true := by
  simp [c_stream, hsig, hnonce, Outcome.isOk]

/-- Witness for the amended C2: account 7 creates demoStream (payer account
1) with a delegated signature and nonce 0 on the empty state, and the call
succeeds. -/
theorem create_checks_only_signature_and_nonce_witness :
    (c_stream (Ctx.mk 99 (.Account 9) 0 true) emptyState (.Account 7) 0 demoStream).isOk = true :=
  create_checks_only_signature_and_nonce (Ctx.mk 99 (.Account 9) 0 true) emptyState
    (set_nonce emptyState (.Account 7) 1) (.Account 7) 0 demoStream rfl rfl

/-- Claim C3, counterexample: at the boundary instant now = end_time the
entitlement is claimed to equal stream.amount, paying amount minus the
withdrawn total.  Concretely, for coarseStream (amount 10 over 0..10 with
tick 3, nothing withdrawn) a withdrawal at time 10 takes the tick path
(the source tests end_time < now strictly) and pays 6, not 10: there are 4
rounded-up ticks of 2 units each and only 3 have elapsed. -/
theorem boundary_withdraw_not_full :
    w_stream (payeeCtx 10) coarseState .Invoker 0 0 =
      .ok 6 (update_amount_withdrawn coarseState 0 6)
        [⟨3, .Contract 99, .Account 2, 6⟩] ∧
    (6 : Int) ≠ coarseStream.amount - 0 := by
  decide

/-- Claim C3, amended: strictly after end_time (end_time < now) the
withdraw path pays stream.amount minus the withdrawn total and passes
stream.amount to the commit (which stores it as a bare integer under the
StreamData key). -/
theorem full_payout_strictly_after_end (ctx : Ctx) (st st1 : ContractState)
    (sid : Nat) (sig : Signature) (nonce : Int) (s : Stream) (d : StreamData)
    (hs : getk sid st.streams = some s)
    (hd : getk sid st.streamData = some (.sd d))
    (hto : sig.identifier ctx.invoker = s.to)
    (hcanc : d.cancelled = false)
    (hdone : d.a_withdraw ≠ s.amount)
    (hsig : ctx.sigOk = true)
    (hnonce : verify_and_consume_nonce st sig ctx.invoker nonce = .ok st1)
    (hnow : s.end_time < ctx.now) :
    w_stream ctx st sig nonce sid =
      .ok (s.amount - d.a_withdraw) (update_amount_withdrawn st1 sid s.amount)
        [⟨s.token_c_id, .Contract ctx.selfId, s.to, s.amount - d.a_withdraw⟩] := by
  simp [w_stream, get_stream, get_stream_data, hs, hd, hto, hcanc, hdone, hsig, hnonce, hnow]

/-- Witness for the amended C3: on demoState at time 11 (past the end time
10) the payee withdraws and receives the full 10 units. -/
theorem full_payout_strictly_after_end_witness :
    w_stream (payeeCtx 11) demoState .Invoker 0 0 =
      .ok (10 - 0) (update_amount_withdrawn demoState 0 10)
        [⟨3, .Contract 99, .Account 2, 10 - 0⟩] :=
  full_payout_strictly_after_end (payeeCtx 11) demoState demoState 0 .Invoker 0
    demoStream (StreamData.mk 0 false) rfl rfl rfl rfl (by decide) rfl rfl (by decide)

/-- Claim C10: c_stream enforces no validation of the stream terms, and the
tick arithmetic of w_stream then traps (division by zero or u64 subtraction
underflow, the fault outcome) instead of returning a domain error.  Three
concrete instances: a stream with tick_time = 0 is created successfully and
a withdrawal at time 5 divides by zero; a stream starting at time 100 is
created successfully and a withdrawal at time 50 underflows now -
start_time; a stream with end_time 5 before start_time 10 is created
successfully and a withdrawal at time 3 underflows end_time -
start_time. -/
theorem create_unvalidated_then_withdraw_faults :
    c_stream (payerCtx 0) emptyState .Invoker 0 zeroTickStream =
      .ok 0 (singleState zeroTickStream) [⟨3, .Account 1, .Contract 99, 10⟩] ∧
    w_stream (payeeCtx 5) (singleState zeroTickStream) .Invoker 0 0 = .fault ∧
    c_stream (payerCtx 0) emptyState .Invoker 0 futureStream =
      .ok 0 (singleState futureStream) [⟨3, .Account 1, .Contract 99, 10⟩] ∧
    w_stream (payeeCtx 50) (singleState futureStream) .Invoker 0 0 = .fault ∧
    c_stream (payerCtx 0) emptyState .Invoker 0 invertedStream =
      .ok 0 (singleState invertedStream) [⟨3, .Account 1, .Contract 99, 10⟩] ∧
    w_stream (payeeCtx 3) (singleState invertedStream) .Invoker 0 0 = .fault := by
  decide

/-- Claim C6: for an existing cancellable, not-yet-cancelled stream, a
successful s_stream by the payer transfers exactly stream.amount minus the
withdrawn total back to the payer, marks the StreamData cancelled, and
resets a_withdraw to 0 rather than preserving the withdrawn total. -/
theorem cancel_settlement (ctx : Ctx) (st : ContractState) (sid : Nat)
    (sig : Signature) (s : Stream) (d : StreamData)
    (hs : getk sid st.streams = some s)
    (hd : getk sid st.streamData = some (.sd d))
    (hfrom : s.«from» = sig.identifier ctx.invoker)
    (hstop : s.able_stop = true)
    (hcanc : d.cancelled = false)
    (hsig : ctx.sigOk = true) :
    s_stream ctx st sig sid =
      .ok () (set_stream_data_cancelled st sid)
        [⟨s.token_c_id, .Contract ctx.selfId, s.«from», s.amount - d.a_withdraw⟩] ∧
    getk sid (set_stream_data_cancelled st sid).streamData =
      some (.sd (StreamData.mk 0 true)) := by
  constructor
  · simp [s_stream, get_stream, get_stream_data, hs, hd, hfrom, hstop, hcanc, hsig]
  · simp [set_stream_data_cancelled, getk_setk_same]

/-- Witness for C6, the cancel scenario of the spec: on stopState (10-unit
cancellable stream with 3 units already withdrawn) the payer cancels and
receives 7 back, and the stored record becomes a_withdraw 0, cancelled. -/
theorem cancel_settlement_witness :
    s_stream (payerCtx 20) stopState .Invoker 0 =
      .ok () (set_stream_data_cancelled stopState 0) [⟨3, .Contract 99, .Account 1, 7⟩] ∧
    getk 0 (set_stream_data_cancelled stopState 0).streamData =
      some (.sd (StreamData.mk 0 true)) :=
  cancel_settlement (payerCtx 20) stopState 0 .Invoker stopStream
    (StreamData.mk 3 false) rfl rfl rfl rfl rfl rfl

/-- Claim C7: the Invoker path of verify_and_consume_nonce accepts only
nonce 0 (error IncorrectNonceForInvoker otherwise) and never touches the
store; the delegated path accepts only the stored nonce (error
IncorrectNonce otherwise, initial value 0) and stores its successor; hence
N successful delegated rounds advance the stored nonce by N, and from the
empty state leave it at exactly N.  Failures return only the error, with no
state. -/
theorem nonce_discipline (st : ContractState) (invoker : Identifier) (nonce : Int) :
    (verify_and_consume_nonce st .Invoker invoker nonce =
      if nonce = 0 then .ok st else .error .IncorrectNonceForInvoker) ∧
    (∀ sig : Signature, sig ≠ .Invoker →
      verify_and_consume_nonce st sig invoker nonce =
        if nonce = get_nonce st (sig.identifier invoker)
        then .ok (set_nonce st (sig.identifier invoker) (nonce + 1))
        else .error .IncorrectNonce) ∧
    (∀ sig : Signature, sig ≠ .Invoker → ∀ N : Nat,
      get_nonce (delegatedRun sig invoker N st) (sig.identifier invoker) =
        get_nonce st (sig.identifier invoker) + N) ∧
    (∀ sig : Signature, sig ≠ .Invoker → ∀ N : Nat,
      get_nonce (delegatedRun sig invoker N emptyState) (sig.identifier invoker) = N) := by
  refine ⟨?_, ?_, ?_, ?_⟩
  · by_cases h : nonce = 0 <;>
      simp [verify_and_consume_nonce, h, eq_comm]
  · intro sig hsig
    cases sig with
    | Invoker => exact absurd rfl hsig
    | Ed25519 pk =>
      by_cases h : nonce = get_nonce st (Signature.identifier invoker (.Ed25519 pk)) <;>
        simp [verify_and_consume_nonce, h]
    | Account acc =>
      by_cases h : nonce = get_nonce st (Signature.identifier invoker (.Account acc)) <;>
        simp [verify_and_consume_nonce, h]
  · intro sig hsig N
    exact delegatedRun_get_nonce sig invoker hsig N st
  · intro sig hsig N
    have h := delegatedRun_get_nonce sig invoker hsig N emptyState
    simpa [get_nonce, emptyState, getk] using h

/-- Witness for C7: a self-authorized round with nonce 0 on the empty state
is accepted and leaves the state unchanged, and three successful delegated
rounds by the ed25519 key 7 leave its stored nonce at 3. -/
theorem nonce_discipline_witness :
    verify_and_consume_nonce emptyState .Invoker (.Account 1) 0 = .ok emptyState ∧
    get_nonce (delegatedRun (.Ed25519 7) (.Account 1) 3 emptyState)
      (Signature.identifier (.Account 1) (.Ed25519 7)) = 3 := by
  have h := nonce_discipline emptyState (.Account 1) 0
  exact ⟨by simpa using h.1, h.2.2.2 (.Ed25519 7) (by decide) 3⟩

/-- Claim C8: for an existing stream, s_stream fails with NotAuthorized
when the signer is not stream.from, with StreamNotCancellable when
able_stop is false, and with StreamCancelled when already cancelled (so a
second cancel never succeeds); failures carry no state at all in this
model, mirroring the transaction abort of a contract panic, and a
successful cancel leaves the nonce store untouched. -/
theorem cancel_error_cases (ctx : Ctx) (st : ContractState) (sid : Nat)
    (sig : Signature) (s : Stream) (d : StreamData)
    (hs : getk sid st.streams = some s)
    (hd : getk sid st.streamData = some (.sd d)) :
    (s.«from» ≠ sig.identifier ctx.invoker → s_stream ctx st sig sid = .err .NotAuthorized) ∧
    (s.«from» = sig.identifier ctx.invoker → s.able_stop = false →
      s_stream ctx st sig sid = .err .StreamNotCancellable) ∧
    (s.«from» = sig.identifier ctx.invoker → s.able_stop = true → d.cancelled = true →
      s_stream ctx st sig sid = .err .StreamCancelled) ∧
    (d.cancelled = true → (s_stream ctx st sig sid).isOk = false) ∧
    (∀ u st2 xf, s_stream ctx st sig sid = .ok u st2 xf → st2.nonces = st.nonces) := by
  refine ⟨?_, ?_, ?_, ?_, ?_⟩
  · intro h
    simp [s_stream, get_stream, get_stream_data, hs, hd, h]
  · intro h1 h2
    simp [s_stream, get_stream, get_stream_data, hs, hd, h1, h2]
  · intro h1 h2 h3
    simp [s_stream, get_stream, get_stream_data, hs, hd, h1, h2, h3]
  · intro h3
    by_cases h1 : s.«from» = sig.identifier ctx.invoker
    · by_cases h2 : s.able_stop = true
      · simp [s_stream, get_stream, get_stream_data, hs, hd, h1, h2, h3, Outcome.isOk]
      · have h2f : s.able_stop = false := by simpa using h2
        simp [s_stream, get_stream, get_stream_data, hs, hd, h1, h2f, Outcome.isOk]
    · simp [s_stream, get_stream, get_stream_data, hs, hd, h1, Outcome.isOk]
  · intro u st2 xf h
    unfold s_stream at h
    rw [show get_stream st sid = .ok s by simp [get_stream, hs]] at h
    rw [show get_stream_data st sid = .ok d by simp [get_stream_data, hd]] at h
    simp only [] at h
    split at h
    · exact absurd h (by simp)
    · split at h
      · exact absurd h (by simp)
      · split at h
        · exact absurd h (by simp)
        · split at h
          · exact absurd h (by simp)
          · rw [Outcome.ok.injEq] at h
            rw [← h.2.1]
            simp [set_stream_data_cancelled]

/-- Witness for C8: on cancelledState, a second cancel by the payer fails
with StreamCancelled; a cancel by account 5 fails with NotAuthorized; on
demoState (not cancellable) the payer's cancel fails with
StreamNotCancellable; and the successful cancel on stopState leaves the
nonce store unchanged. -/
theorem cancel_error_cases_witness :
    s_stream (payerCtx 20) cancelledState .Invoker 0 = .err .StreamCancelled ∧
    s_stream (Ctx.mk 99 (.Account 5) 20 true) cancelledState .Invoker 0 = .err .NotAuthorized ∧
    s_stream (payerCtx 20) demoState .Invoker 0 = .err .StreamNotCancellable ∧
    (set_stream_data_cancelled stopState 0).nonces = stopState.nonces := by
  refine ⟨?_, ?_, ?_, ?_⟩
  · exact (cancel_error_cases (payerCtx 20) cancelledState 0 .Invoker stopStream
      (StreamData.mk 0 true) rfl rfl).2.2.1 rfl rfl rfl
  · exact (cancel_error_cases (Ctx.mk 99 (.Account 5) 20 true) cancelledState 0 .Invoker
      stopStream (StreamData.mk 0 true) rfl rfl).1 (by decide)
  · exact (cancel_error_cases (payerCtx 20) demoState 0 .Invoker demoStream
      (StreamData.mk 0 false) rfl rfl).2.1 rfl rfl
  · exact (cancel_error_cases (payerCtx 20) stopState 0 .Invoker stopStream
      (StreamData.mk 3 false) rfl rfl).2.2.2.2 () (set_stream_data_cancelled stopState 0)
      [⟨3, .Contract 99, .Account 1, 7⟩]
      (cancel_settlement (payerCtx 20) stopState 0 .Invoker stopStream
        (StreamData.mk 3 false) rfl rfl rfl rfl rfl rfl).1

/-- Claim C9: for an absent stream id, w_stream, s_stream and the public
get_stream all fail with StreamNotExist; for an existing stream, w_stream
fails with NotAuthorized when the signer is not stream.to — for every
signature validity flag and every nonce, i.e. before signature and nonce
authorization — with StreamCancelled when the cancelled flag is set, and
with StreamDone when the withdrawn total already equals stream.amount. -/
theorem withdraw_error_cases (ctx : Ctx) (st : ContractState) (sid : Nat)
    (sig : Signature) (nonce : Int) :
    (getk sid st.streams = none →
      w_stream ctx st sig nonce sid = .err .StreamNotExist ∧
      s_stream ctx st sig sid = .err .StreamNotExist ∧
      StreamingContract.get_stream st sid = .error .StreamNotExist) ∧
    (∀ s d, getk sid st.streams = some s → getk sid st.streamData = some (.sd d) →
      (sig.identifier ctx.invoker ≠ s.to → w_stream ctx st sig nonce sid = .err .NotAuthorized) ∧
      (sig.identifier ctx.invoker = s.to → d.cancelled = true →
        w_stream ctx st sig nonce sid = .err .StreamCancelled) ∧
      (sig.identifier ctx.invoker = s.to → d.cancelled = false → d.a_withdraw = s.amount →
        w_stream ctx st sig nonce sid = .err .StreamDone)) := by
  constructor
  · intro h
    refine ⟨?_, ?_, ?_⟩
    · simp [w_stream, get_stream, h]
    · simp [s_stream, get_stream, h]
    · simp [StreamingContract.get_stream, get_stream, h]
  · intro s d hs hd
    refine ⟨?_, ?_, ?_⟩
    · intro h
      simp [w_stream, get_stream, get_stream_data, hs, hd, h]
    · intro h1 h2
      simp [w_stream, get_stream, get_stream_data, hs, hd, h1, h2]
    · intro h1 h2 h3
      simp [w_stream, get_stream, get_stream_data, hs, hd, h1, h2, h3]

/-- Witness for C9: on the empty state all three entry points fail with
StreamNotExist for stream 0; on demoState a withdraw signed by account 8
with a failing signature check and a wrong nonce still fails with
NotAuthorized (the payee check runs first); a withdraw on cancelledState
fails with StreamCancelled; a withdraw on doneState fails with
StreamDone. -/
theorem withdraw_error_cases_witness :
    w_stream (payeeCtx 5) emptyState .Invoker 0 0 = .err .StreamNotExist ∧
    s_stream (payeeCtx 5) emptyState .Invoker 0 = .err .StreamNotExist ∧
    StreamingContract.get_stream emptyState 0 = .error .StreamNotExist ∧
    w_stream (Ctx.mk 99 (.Account 8) 5 false) demoState .Invoker 77 0 = .err .NotAuthorized ∧
    w_stream (payeeCtx 5) cancelledState .Invoker 0 0 = .err .StreamCancelled ∧
    w_stream (payeeCtx 5) doneState .Invoker 0 0 = .err .StreamDone := by
  have h1 := (withdraw_error_cases (payeeCtx 5) emptyState 0 .Invoker 0).1 rfl
  have h2 := ((withdraw_error_cases (Ctx.mk 99 (.Account 8) 5 false) demoState 0 .Invoker 77).2
    demoStream (StreamData.mk 0 false) rfl rfl).1 (by decide)
  have h3 := ((withdraw_error_cases (payeeCtx 5) cancelledState 0 .Invoker 0).2
    stopStream (StreamData.mk 0 true) rfl rfl).2.1 rfl rfl
  have h4 := ((withdraw_error_cases (payeeCtx 5) doneState 0 .Invoker 0).2
    demoStream (StreamData.mk 10 false) rfl rfl).2.2 rfl rfl rfl
  exact ⟨h1.1, h1.2.1, h1.2.2, h2, h3, h4⟩

end SorobanStreaming
